import Mathlib

/-!
# LinkUp social-media app: shallow embedding and verification

A shallow embedding of the core logic of the LinkUp Flask/peewee
application (`models.py`, `app.py`, `postform.py`, `loginform.py`,
`registerform.py`) together with proofs of the behavioural properties
claimed by its specification.

The SQLite database is modelled as three tables held in insertion
(rowid) order.  Peewee query semantics are translated as follows:

* `Post.select()` emits no `ORDER BY`: the `backref=` keyword used by the
  foreign keys in `models.py` requires peewee 3, and peewee 3 silently
  ignores the legacy `Post.Meta.order_by` declaration (a peewee 2
  leftover), so rows arrive in rowid (insertion) order.
* `.limit(100)` is `List.take 100`.
* The `**` operator of peewee is the case-insensitive `LIKE` of SQLite, modelled
  by `likeMatch` including the `%` and `_` wildcard metacharacters.
* `Model.get(...)` returns the first matching row or raises
  `DoesNotExist`; `Model.create` under a violated unique constraint
  raises `IntegrityError`.
* `flask_bcrypt.generate_password_hash` / `check_password_hash` are
  modelled by an injective tagging function `pwHash`: the check succeeds
  exactly when the same plaintext is supplied again.
-/

namespace LinkUp

/-- A row of the `User` table (`models.py`, class `User`): `username` and
`email` carry unique indexes, `password` stores the bcrypt hash. -/
structure User where
  id : Nat
  username : String
  email : String
  password : String
  is_admin : Bool
deriving Repr, DecidableEq

/-- A row of the `Relationship` table (`models.py`, class `Relationship`):
a directed follow edge, with a unique index on the pair
`(from_user, to_user)`. -/
structure Relationship where
  from_user : Nat
  to_user : Nat
deriving Repr, DecidableEq

/-- A row of the `Post` table (`models.py`, class `Post`): `user` is the
foreign key of the owning account. -/
structure Post where
  id : Nat
  timestamp : Nat
  user : Nat
  content : String
deriving Repr, DecidableEq

/-- The SQLite database `public.db`: the three tables, each in insertion
(rowid) order. -/
structure Database where
  users : List User
  relationships : List Relationship
  posts : List Post
deriving Repr, DecidableEq

/-- Errors raised by peewee that the routes in `app.py` interact with. -/
inductive DbError where
  | doesNotExist
deriving Repr, DecidableEq

/-- Model of `flask_bcrypt.generate_password_hash`: an opaque one-way
encoding whose only observable property is that
`check_password_hash (pwHash p) q` succeeds iff `p = q`. -/
def pwHash (p : String) : String := "bcrypt$" ++ p

/-- Model of `flask_bcrypt.check_password_hash stored given`. -/
def check_password_hash (stored given : String) : Bool :=
  stored == pwHash given

/-- The whitespace characters stripped by the Python `str.strip()` method
(ASCII: space, tab, newline, carriage return, vertical tab, form feed). -/
def pyWhitespace (c : Char) : Bool :=
  c == ' ' || c == '\t' || c == '\n' || c == '\r' ||
    c == Char.ofNat 11 || c == Char.ofNat 12

/-- Model of the Python `str.strip()` method: drop leading and trailing
whitespace. -/
def pyStrip (s : String) : String :=
  String.mk (((s.toList.dropWhile pyWhitespace).reverse.dropWhile
    pyWhitespace).reverse)

/-- Model of `User.create_user` (`models.py` lines 103-141): inside a transaction,
insert the row; the unique indexes on `username` and `email` raise
`IntegrityError` on a collision, re-raised as
`ValueError("User already exists")` with the transaction rolled back. -/
def create_user (db : Database) (username email password : String)
    (adm : Bool := false) : Except String Database :=
  if db.users.any (fun u => u.username == username || u.email == email) then
    .error "User already exists"
  else
    .ok { db with users := db.users ++
      [{ id := db.users.length + 1, username := username, email := email,
         password := pwHash password, is_admin := adm }] }

/-- The database state the caller of `create_user` observes afterwards:
on `IntegrityError` the transaction rolls back, leaving the store as it
was. -/
def create_userDb (db : Database) (username email password : String)
    (adm : Bool := false) : Database :=
  match create_user db username email password adm with
  | .ok db2 => db2
  | .error _ => db

/-- The `/new_post` route (`app.py` lines 201-227) combined with
`PostForm` (`postform.py`): the `DataRequired` validator rejects content
that is empty or whitespace-only (WTForms strips strings before the
emptiness test), and on success `Post.create` stores
`form.content.data.strip()`. -/
def createPost (db : Database) (owner : Nat) (now : Nat)
    (content : String) : Except String Database :=
  if pyStrip content == "" then
    .error "EmptyContent"
  else
    .ok { db with posts := db.posts ++
      [{ id := db.posts.length + 1, timestamp := now, user := owner,
         content := pyStrip content }] }

/-- The post store the caller observes after a `/new_post` request: a
failed validation re-renders the form and stores nothing. -/
def createPostDb (db : Database) (owner : Nat) (now : Nat)
    (content : String) : Database :=
  match createPost db owner now content with
  | .ok db2 => db2
  | .error _ => db

def genericLoginError : String := "Your email or password does not match."

/-- The `/login` route (`app.py` lines 134-175): look the account up by
exact email equality (`User.email == form.email.data`); on
`DoesNotExist` flash the generic message; otherwise compare the bcrypt
hash and flash the same generic message on mismatch. -/
def login (db : Database) (email password : String) :
    Except String User :=
  match db.users.find? (fun u => u.email == email) with
  | none => .error genericLoginError
  | some u =>
      if check_password_hash u.password password then .ok u
      else .error genericLoginError

/-- The edge-insertion step of the `/follow/<username>` route (`app.py`
lines 292-309): `Relationship.create` raises `IntegrityError` when the
unique `(from_user, to_user)` index is violated, and the route silently
passes on it. -/
def follow (db : Database) (a b : Nat) : Database :=
  if (⟨a, b⟩ : Relationship) ∈ db.relationships then db
  else { db with relationships := db.relationships ++ [⟨a, b⟩] }

/-- A sequence of follow actions applied in order. -/
def followAll (db : Database) (cmds : List (Nat × Nat)) : Database :=
  cmds.foldl (fun d c => follow d c.1 c.2) db

/-- The edge-removal step of the `/unfollow/<username>` route (`app.py`
lines 312-329): `Relationship.get(...)` raises `DoesNotExist` when no
edge matches, and the surrounding `try` only catches `IntegrityError`,
so the `DoesNotExist` escapes to the caller; when the edge exists, the
fetched row is deleted. -/
def unfollow (db : Database) (a b : Nat) : Except DbError Database :=
  if (⟨a, b⟩ : Relationship) ∈ db.relationships then
    .ok { db with relationships := db.relationships.erase ⟨a, b⟩ }
  else
    .error .doesNotExist

/-- The `following` property of `User` (`models.py` lines 80-88):
`User.select().join(Relationship, on=Relationship.to_user)` filtered to
`Relationship.from_user == self` — SQL bag semantics: one user row per
matching join pair. -/
def following (db : Database) (a : Nat) : List User :=
  db.relationships.flatMap (fun r =>
    if r.from_user == a then
      db.users.filter (fun u => u.id == r.to_user)
    else [])

/-- Whether a post is visible in the stream of a viewer, from the `WHERE`
clause of `User.get_stream` (`models.py` lines 74-78):
`(Post.user << self.following) | (Post.user == self)`. -/
def inStream (db : Database) (viewer : Nat) (p : Post) : Bool :=
  (following db viewer).any (fun u => u.id == p.user) || p.user == viewer

/-- Model of `User.get_stream` (`models.py` lines 74-78): the posts whose
owner is the viewer or one of the followees of the viewer.  The select
emits no `ORDER BY` — peewee 3, required by the `backref=` keyword in
`models.py`, ignores the inert `Post.Meta.order_by` declaration — so the
rows come back in rowid (insertion) order. -/
def get_stream (db : Database) (viewer : Nat) : List Post :=
  db.posts.filter (inStream db viewer)

/-- The own-stream branch of the `/stream` route (`app.py` line 277):
`current_user.get_stream().limit(100)`. -/
def personalStream (db : Database) (viewer : Nat) : List Post :=
  (get_stream db viewer).take 100

/-- The `/` route (`app.py` lines 230-246):
`models.Post.select().limit(100)` with no `ORDER BY` (peewee 3 ignores
`Post.Meta.order_by`): the first 100 rows in rowid (insertion) order,
i.e. the 100 oldest posts. -/
def index_stream (db : Database) : List Post :=
  db.posts.take 100

/-- The SQLite `LIKE` match (case-insensitive for ASCII), as invoked by
the peewee `**` operator: `%` matches any sequence (the rest of the
pattern must match some suffix of the value), `_` matches any single
character, other characters match up to ASCII case. -/
def likeMatch : List Char → List Char → Bool
  | [], v => v.isEmpty
  | p :: ps, v =>
    if p == '%' then v.tails.any (fun s => likeMatch ps s)
    else
      match v with
      | [] => false
      | c :: cs =>
        if p == '_' then likeMatch ps cs
        else p.toLower == c.toLower && likeMatch ps cs

/-- Username resolution shared by the `/stream/<username>`,
`/follow/<username>` and `/unfollow/<username>` routes (`app.py` lines
270, 296, 316): `User.username ** username` fetched with `.get()`, i.e.
the first row (rowid order) whose username LIKE-matches the query. -/
def lookup_by_username (db : Database) (q : String) : Option User :=
  db.users.find? (fun u => likeMatch q.toList u.username.toList)

/-- The email lookup used at login (`app.py` line 164): exact string
equality, unlike the case-insensitive username resolution. -/
def lookup_by_email (db : Database) (email : String) : Option User :=
  db.users.find? (fun u => u.email == email)

/-! ### Example database states used by the witnesses -/

/-- The empty store, as right after `initialize()`. -/
def emptyDb : Database := ⟨[], [], []⟩

/-- A registered account used by the witnesses. -/
def aliceUser : User :=
  { id := 1, username := "alice", email := "alice@example.com",
    password := pwHash "hunter2", is_admin := false }

/-- A store with a single registered account. -/
def aliceDb : Database := ⟨[aliceUser], [], []⟩

/-- A second registered account used by the witnesses. -/
def bobUser : User :=
  { id := 2, username := "bob", email := "bob@example.com",
    password := pwHash "pw", is_admin := false }

/-- A store with two accounts and no follow edges. -/
def twoUserDb : Database := ⟨[aliceUser, bobUser], [], []⟩

/-- A store in which `bob` (id 2) already follows `alice` (id 1). -/
def followedDb : Database := ⟨[aliceUser, bobUser], [⟨2, 1⟩], []⟩

/-- A third account not followed by anyone. -/
def eveUser : User :=
  { id := 3, username := "eve", email := "eve@example.com",
    password := pwHash "pw", is_admin := false }

/-- The first post by `bob`. -/
def hiPost : Post := { id := 1, timestamp := 10, user := 2, content := "hi" }

/-- The second post by `bob`. -/
def therePost : Post :=
  { id := 2, timestamp := 20, user := 2, content := "there" }

/-- A post by `eve`, whom `alice` does not follow. -/
def evePost : Post :=
  { id := 3, timestamp := 30, user := 3, content := "lurking" }

/-- The example scenario of the spec: `alice` follows `bob`; `bob` has posted
`"hi"` then `"there"`; `eve` has posted too. -/
def scenarioDb : Database :=
  ⟨[aliceUser, bobUser, eveUser], [⟨1, 2⟩], [hiPost, therePost, evePost]⟩

/-- A store holding 150 posts, all owned by `alice`, with ascending ids
and timestamps. -/
def bigDb : Database :=
  ⟨[aliceUser], [],
    (List.range 150).map (fun i =>
      { id := i + 1, timestamp := i, user := 1, content := "post" })⟩

/-! ### C7 / C8: post creation -/

/-- C7: for every owner and every content string whose whitespace-trimmed
form is non-empty, `createPost` appends exactly one post whose stored
content is the trimmed string. -/
theorem createPost_stores_trimmed (db : Database) (o t : Nat)
    (content : String) (h : pyStrip content ≠ "") :
    createPost db o t content = .ok { db with posts := db.posts ++
      [{ id := db.posts.length + 1, timestamp := t, user := o,
         content := pyStrip content }] } := by
  simp only [createPost, beq_iff_eq, h, if_false]

/-- C7 witness: `createPost(owner, "  hello  ")` stores content
`"hello"`. -/
theorem createPost_stores_trimmed_witness :
    pyStrip "  hello  " ≠ "" ∧
    createPost emptyDb 1 5 "  hello  " = .ok
      ⟨[], [], [{ id := 1, timestamp := 5, user := 1, content := "hello" }]⟩ := by
  refine ⟨by decide, ?_⟩
  rw [createPost_stores_trimmed emptyDb 1 5 "  hello  " (by decide)]
  rfl

/-- C8: content that is empty after trimming is rejected with
`EmptyContent` (the `DataRequired` validator fails before any
`Post.create` runs) and the post store is unchanged. -/
theorem createPost_empty_rejected (db : Database) (o t : Nat)
    (content : String) (h : pyStrip content = "") :
    createPost db o t content = .error "EmptyContent" ∧
    createPostDb db o t content = db := by
  have he : createPost db o t content = .error "EmptyContent" := by
    simp only [createPost, beq_iff_eq, h, if_true, if_pos]
  exact ⟨he, by simp only [createPostDb, he]⟩

/-- C8 witness: `createPost(owner, "   ")` fails and stores nothing. -/
theorem createPost_empty_rejected_witness :
    pyStrip "   " = "" ∧
    createPost aliceDb 1 5 "   " = .error "EmptyContent" ∧
    createPostDb aliceDb 1 5 "   " = aliceDb := by
  refine ⟨by decide, ?_, ?_⟩
  · exact (createPost_empty_rejected aliceDb 1 5 "   " (by decide)).1
  · exact (createPost_empty_rejected aliceDb 1 5 "   " (by decide)).2

/-! ### C9: generic login failure -/

/-- C9: both login failure causes — unknown email, and known email with a
failing password-hash check — produce the identical observable outcome,
the single generic message, so the caller cannot distinguish them. -/
theorem login_failures_indistinguishable (db : Database)
    (email password : String) :
    (lookup_by_email db email = none →
      login db email password = .error genericLoginError) ∧
    (∀ u, lookup_by_email db email = some u →
      check_password_hash u.password password = false →
      login db email password = .error genericLoginError) := by
  constructor
  · intro h
    unfold login
    unfold lookup_by_email at h
    rw [h]
  · intro u h hc
    unfold login
    unfold lookup_by_email at h
    rw [h]
    simp [hc]

/-- C9 witness: on a concrete store, a lookup miss and a hash mismatch
yield the same generic failure. -/
theorem login_failures_indistinguishable_witness :
    (lookup_by_email aliceDb "nobody@example.com" = none ∧
      login aliceDb "nobody@example.com" "hunter2" =
        .error genericLoginError) ∧
    (lookup_by_email aliceDb "alice@example.com" = some aliceUser ∧
      check_password_hash aliceUser.password "wrong" = false ∧
      login aliceDb "alice@example.com" "wrong" =
        .error genericLoginError) := by
  refine ⟨⟨by decide, ?_⟩, ⟨by decide, by decide, ?_⟩⟩
  · exact (login_failures_indistinguishable aliceDb "nobody@example.com"
      "hunter2").1 (by decide)
  · exact (login_failures_indistinguishable aliceDb "alice@example.com"
      "wrong").2 aliceUser (by decide) (by decide)

/-! ### C6: account uniqueness -/

/-- C6: from a store with no colliding username or email, the first
`create_user` call succeeds; a second call sharing its username or its
email fails with the duplicate error (the unique index raises
`IntegrityError`, re-raised as `ValueError("User already exists")`), and
the rolled-back transaction leaves the account store unchanged. -/
theorem create_user_uniqueness (db : Database) (un em pw : String)
    (adm : Bool) (un2 em2 pw2 : String) (adm2 : Bool) (db2 : Database) :
    ((¬ ∃ u ∈ db.users, u.username = un ∨ u.email = em) →
      ∃ db1, create_user db un em pw adm = .ok db1) ∧
    (create_user db un em pw adm = .ok db2 → (un2 = un ∨ em2 = em) →
      create_user db2 un2 em2 pw2 adm2 = .error "User already exists" ∧
      create_userDb db2 un2 em2 pw2 adm2 = db2) := by
  constructor
  · intro h
    refine ⟨{ db with users := db.users ++
      [{ id := db.users.length + 1, username := un, email := em,
         password := pwHash pw, is_admin := adm }] }, ?_⟩
    rw [create_user, if_neg]
    simp only [List.any_eq_true, Bool.or_eq_true, beq_iff_eq]
    rintro ⟨u, hu, hor⟩
    exact h ⟨u, hu, hor⟩
  · intro hok hshare
    unfold create_user at hok
    split at hok
    · exact absurd hok (by simp)
    · have hdb2 : db2.users = db.users ++
          [{ id := db.users.length + 1, username := un, email := em,
             password := pwHash pw, is_admin := adm }] := by
        cases hok
        rfl
      have hcond : db2.users.any
          (fun u => u.username == un2 || u.email == em2) = true := by
        rw [hdb2]
        simp only [List.any_append, List.any_cons, List.any_nil,
          Bool.or_eq_true, beq_iff_eq]
        rcases hshare with h1 | h2
        · exact Or.inr (Or.inl (Or.inl h1.symm))
        · exact Or.inr (Or.inl (Or.inr h2.symm))
      have herr : create_user db2 un2 em2 pw2 adm2 =
          .error "User already exists" := by
        rw [create_user, if_pos hcond]
      exact ⟨herr, by simp only [create_userDb, herr]⟩

/-- C6 witness: registering `alice` twice on a fresh store — the second
call collides on the username, fails, and leaves the store unchanged. -/
theorem create_user_uniqueness_witness :
    (¬ ∃ u ∈ emptyDb.users, u.username = "alice" ∨
      u.email = "alice@example.com") ∧
    create_user emptyDb "alice" "alice@example.com" "hunter2" false =
      .ok aliceDb ∧
    create_user aliceDb "alice" "other@example.com" "pw" false =
      .error "User already exists" ∧
    create_userDb aliceDb "alice" "other@example.com" "pw" false =
      aliceDb := by
  have h2 := (create_user_uniqueness emptyDb "alice" "alice@example.com"
    "hunter2" false "alice" "other@example.com" "pw" false aliceDb).2
    rfl (Or.inl rfl)
  exact ⟨by decide, rfl, h2.1, h2.2⟩

/-! ### C5: unfollow of a missing edge raises -/

/-- C5 divergence: on a store with no follow edge, `unfollow` raises
`DoesNotExist` to the caller — `Relationship.get` raises `DoesNotExist`,
and the `try` in the route only catches `IntegrityError` — rather than being
a silent no-op; when the edge exists, exactly that edge is removed. -/
theorem unfollow_missing_edge_raises :
    unfollow emptyDb 1 2 = .error DbError.doesNotExist ∧
    unfollow ⟨[], [⟨1, 2⟩, ⟨3, 4⟩], []⟩ 1 2 = .ok ⟨[], [⟨3, 4⟩], []⟩ :=
  ⟨rfl, rfl⟩

/-! ### C4: idempotent follow -/

theorem follow_users (db : Database) (a b : Nat) :
    (follow db a b).users = db.users := by
  unfold follow
  split <;> rfl

theorem follow_rel_nodup (db : Database) (a b : Nat)
    (h : db.relationships.Nodup) : (follow db a b).relationships.Nodup := by
  unfold follow
  split
  · exact h
  · rename_i hmem
    simp [List.nodup_append, h, hmem]

theorem follow_edge_mem (db : Database) (a b : Nat) :
    (⟨a, b⟩ : Relationship) ∈ (follow db a b).relationships := by
  unfold follow
  split
  · assumption
  · simp

theorem follow_of_mem (db : Database) (a b : Nat)
    (h : (⟨a, b⟩ : Relationship) ∈ db.relationships) :
    follow db a b = db := by
  unfold follow
  rw [if_pos h]

theorem follow_edge_count (db : Database) (a b : Nat)
    (h : db.relationships.Nodup) :
    (follow db a b).relationships.count ⟨a, b⟩ = 1 := by
  unfold follow
  split
  · rename_i hmem
    exact Nat.le_antisymm (List.nodup_iff_count_le_one.mp h _)
      (List.count_pos_iff.mpr hmem)
  · rename_i hmem
    simp [List.count_eq_zero_of_not_mem hmem]

theorem followAll_rel_nodup :
    ∀ (cmds : List (Nat × Nat)) (db : Database),
      db.relationships.Nodup → (followAll db cmds).relationships.Nodup
  | [], _, h => h
  | c :: cs, db, h =>
    followAll_rel_nodup cs (follow db c.1 c.2) (follow_rel_nodup db c.1 c.2 h)

/-- The SQL join in `following` yields each user once per matching edge:
the count of a user row in the join is the edge count times the user-row
count. -/
theorem count_following (db : Database) (a : Nat) (u : User) :
    (following db a).count u =
      db.relationships.count ⟨a, u.id⟩ * db.users.count u := by
  unfold following
  generalize db.relationships = l
  induction l with
  | nil => simp
  | cons r rest ih =>
    rw [List.flatMap_cons, List.count_append, ih, List.count_cons,
      Nat.add_mul]
    have key : ((if (r.from_user == a) = true then
        db.users.filter (fun v => v.id == r.to_user) else []).count u) =
        (if (r == (⟨a, u.id⟩ : Relationship)) = true then 1 else 0) *
          db.users.count u := by
      by_cases hf : r.from_user = a
      · by_cases ht : r.to_user = u.id
        · have hr : r = ⟨a, u.id⟩ := by
            cases r
            simp_all
          rw [if_pos (by simp [hf]), hr, if_pos (by simp), Nat.one_mul]
          exact List.count_filter (by simp [ht])
        · have hr : (r == (⟨a, u.id⟩ : Relationship)) = false := by
            cases r
            simp_all [Relationship.mk.injEq]
          rw [if_pos (by simp [hf]), hr, if_neg (by simp), Nat.zero_mul]
          refine List.count_eq_zero.mpr (fun hmem => ?_)
          have h2 := (List.mem_filter.mp hmem).2
          simp only [beq_iff_eq] at h2
          exact ht h2.symm
      · have hr : (r == (⟨a, u.id⟩ : Relationship)) = false := by
          cases r
          simp_all [Relationship.mk.injEq]
        rw [if_neg (by simp [hf]), hr, if_neg (by simp), Nat.zero_mul]
        simp
    rw [key]
    ring

/-- C4: a `follow` when the edge already exists is a silent no-op leaving
the follow graph unchanged; any sequence of follows preserves the
at-most-one-edge-per-ordered-pair invariant; and after `follow(a, b)` is
called twice, `followees(a)` contains `b` exactly once. -/
theorem follow_idempotence (db : Database) (a b : Nat) (u : User)
    (cmds : List (Nat × Nat)) :
    ((⟨a, b⟩ : Relationship) ∈ db.relationships → follow db a b = db) ∧
    (db.relationships.Nodup → (followAll db cmds).relationships.Nodup) ∧
    (db.relationships.Nodup → db.users.count u = 1 →
      (following (follow (follow db a u.id) a u.id) a).count u = 1) := by
  refine ⟨follow_of_mem db a b, fun h => followAll_rel_nodup cmds db h,
    fun hn hu => ?_⟩
  rw [follow_of_mem _ _ _ (follow_edge_mem db a u.id), count_following,
    follow_edge_count db a u.id hn, follow_users, hu]

/-- C4 witness: on concrete stores — re-following an existing edge is a
no-op, a double-follow sequence keeps the edge table duplicate-free, and
after `bob` follows `alice` twice, `alice` is a followee exactly once. -/
theorem follow_idempotence_witness :
    follow followedDb 2 1 = followedDb ∧
    (followAll twoUserDb [(2, 1), (2, 1)]).relationships.Nodup ∧
    (following (follow (follow twoUserDb 2 aliceUser.id) 2
      aliceUser.id) 2).count aliceUser = 1 :=
  ⟨(follow_idempotence followedDb 2 1 aliceUser []).1 (by decide),
   (follow_idempotence twoUserDb 2 1 aliceUser [(2, 1), (2, 1)]).2.1
     (by decide),
   (follow_idempotence twoUserDb 2 1 aliceUser []).2.2 (by decide)
     (by decide)⟩

/-! ### C1: personal stream membership -/

/-- Membership in the `following` join: a user row appears iff it is
stored and the follow edge from the viewer to it exists. -/
theorem mem_following (db : Database) (v : Nat) (u : User) :
    u ∈ following db v ↔
      u ∈ db.users ∧ (⟨v, u.id⟩ : Relationship) ∈ db.relationships := by
  unfold following
  simp only [List.mem_flatMap]
  constructor
  · rintro ⟨r, hr, hu⟩
    revert hu
    split
    · rename_i hcond
      intro hu
      have hmf := List.mem_filter.mp hu
      simp only [beq_iff_eq] at hcond hmf
      refine ⟨hmf.1, ?_⟩
      have : r = ⟨v, u.id⟩ := by
        cases r
        simp_all
      exact this ▸ hr
    · intro hu
      exact absurd hu (List.not_mem_nil u)
  · rintro ⟨hu, hrel⟩
    refine ⟨⟨v, u.id⟩, hrel, ?_⟩
    simp [List.mem_filter, hu]

/-- The `WHERE` clause of `get_stream`, spelled out: a post passes iff
its owner is the viewer or a stored followee of the viewer. -/
theorem inStream_iff (db : Database) (v : Nat) (p : Post) :
    inStream db v p = true ↔
      p.user = v ∨ ∃ u ∈ db.users, u.id = p.user ∧
        (⟨v, p.user⟩ : Relationship) ∈ db.relationships := by
  unfold inStream
  simp only [Bool.or_eq_true, List.any_eq_true, beq_iff_eq]
  constructor
  · rintro (⟨u, hu, hid⟩ | h)
    · rw [mem_following] at hu
      exact Or.inr ⟨u, hu.1, hid, hid ▸ hu.2⟩
    · exact Or.inl h
  · rintro (h | ⟨u, hu, hid, hrel⟩)
    · exact Or.inr h
    · exact Or.inl ⟨u, (mem_following db v u).mpr ⟨hu, hid ▸ hrel⟩, hid⟩

/-- C1: every post in `personalStream(V)` is a stored post owned by `V`
or by a stored followee of `V`; conversely, whenever at most 100 posts
qualify, every qualifying post is in the stream. -/
theorem personalStream_membership (db : Database) (v : Nat) :
    (∀ p ∈ personalStream db v, p ∈ db.posts ∧
      (p.user = v ∨ ∃ u ∈ db.users, u.id = p.user ∧
        (⟨v, p.user⟩ : Relationship) ∈ db.relationships)) ∧
    ((db.posts.filter (inStream db v)).length ≤ 100 →
      ∀ p ∈ db.posts,
        (p.user = v ∨ ∃ u ∈ db.users, u.id = p.user ∧
          (⟨v, p.user⟩ : Relationship) ∈ db.relationships) →
        p ∈ personalStream db v) := by
  constructor
  · intro p hp
    have hf : p ∈ db.posts.filter (inStream db v) :=
      List.mem_of_mem_take hp
    have hmf := List.mem_filter.mp hf
    exact ⟨hmf.1, (inStream_iff db v p).mp hmf.2⟩
  · intro hlen p hp hcond
    have hf : p ∈ db.posts.filter (inStream db v) :=
      List.mem_filter.mpr ⟨hp, (inStream_iff db v p).mpr hcond⟩
    unfold personalStream get_stream
    rw [List.take_of_length_le hlen]
    exact hf

/-- C1 witness: in the example scenario, fewer than 100 posts qualify and
the post `"there"` by `bob` — `bob` being a followee of `alice` — is in
the personal stream of `alice`. -/
theorem personalStream_membership_witness :
    (scenarioDb.posts.filter (inStream scenarioDb 1)).length ≤ 100 ∧
    therePost ∈ scenarioDb.posts ∧
    (therePost.user = 1 ∨ ∃ u ∈ scenarioDb.users, u.id = therePost.user ∧
      (⟨1, therePost.user⟩ : Relationship) ∈ scenarioDb.relationships) ∧
    therePost ∈ personalStream scenarioDb 1 :=
  ⟨by decide, by decide, by decide,
   (personalStream_membership scenarioDb 1).2 (by decide) therePost
     (by decide) (by decide)⟩

/-! ### C3: the global landing view keeps the oldest 100 posts -/

/-- The oldest post stored in `bigDb` (rowid 1, timestamp 0). -/
def oldestPost : Post :=
  { id := 1, timestamp := 0, user := 1, content := "post" }

/-- The newest post stored in `bigDb` (rowid 150, timestamp 149). -/
def newestPost : Post :=
  { id := 150, timestamp := 149, user := 1, content := "post" }

/-- C3 divergence: on a store with 150 posts the landing view keeps the
first 100 rows in rowid order — the 100 *oldest* posts: the oldest post
is returned while the newest is omitted, although the omitted post is
strictly newer than a returned one.  The inert
`Post.Meta.order_by = -timestamp` declaration (`models.py` line 205)
documents the intended newest-first order, which peewee 3 — required by
the `backref=` keyword — silently ignores. -/
theorem index_stream_keeps_oldest :
    (index_stream bigDb).length = 100 ∧
    oldestPost ∈ index_stream bigDb ∧
    newestPost ∈ bigDb.posts ∧
    newestPost ∉ index_stream bigDb ∧
    oldestPost.timestamp < newestPost.timestamp := by
  decide

/-! ### C2: the personal stream is not timestamp-ordered -/

/-- A post by `alice` inserted first (rowid 1), with the older
timestamp. -/
def olderPost : Post :=
  { id := 1, timestamp := 10, user := 1, content := "older" }

/-- A post by `alice` inserted second (rowid 2), with the newer
timestamp. -/
def newerPost : Post :=
  { id := 2, timestamp := 20, user := 1, content := "newer" }

/-- A store whose two posts sit in rowid order, oldest first — the order
in which posts accumulate over time. -/
def misorderDb : Database := ⟨[aliceUser], [], [olderPost, newerPost]⟩

/-- C2 divergence: the select behind the personal stream emits no
`ORDER BY` (peewee 3, required by the `backref=` keyword, ignores the
inert `Post.Meta.order_by` declaration that documents the intended
timestamp-descending order), so the stream comes back in rowid order:
here the strictly older post precedes the newer one, refuting the
claimed timestamp-descending sequence. -/
theorem personalStream_not_sorted :
    personalStream misorderDb 1 = [olderPost, newerPost] ∧
    olderPost.timestamp < newerPost.timestamp := by
  decide

/-! ### C10: case-insensitive username resolution -/

/-- A `LIKE` pattern without the `%` metacharacter matches any string
equal to it up to ASCII case (`_` matches any single character, so in
particular the same character). -/
theorem likeMatch_of_map_toLower_eq :
    ∀ (p v : List Char), '%' ∉ p →
      p.map Char.toLower = v.map Char.toLower → likeMatch p v = true := by
  intro p
  induction p with
  | nil =>
    intro v _ hmap
    have hv : v = [] := by
      cases v
      · rfl
      · simp at hmap
    subst hv
    rfl
  | cons c cs ih =>
    intro v hpct hmap
    cases v with
    | nil => simp at hmap
    | cons d ds =>
      simp only [List.map_cons, List.cons.injEq] at hmap
      have hcpct : c ≠ '%' := fun h => hpct (h ▸ List.mem_cons_self c cs)
      have hcspct : '%' ∉ cs := fun h => hpct (List.mem_cons_of_mem c h)
      rw [likeMatch, if_neg (by simp [hcpct])]
      by_cases hcu : c = '_'
      · rw [if_pos (by simp [hcu])]
        exact ih ds hcspct hmap.2
      · rw [if_neg (by simp [hcu])]
        simp only [Bool.and_eq_true, beq_iff_eq]
        exact ⟨hmap.1, ih ds hcspct hmap.2⟩

/-- C10 counterexample: with two stored accounts whose usernames differ
only in case, the query `"bob"` equals `"BOB"` up to case yet resolves
to the other account, not to the `"BOB"` account. -/
def caseDb : Database :=
  ⟨[bobUser,
    { id := 3, username := "BOB", email := "bob2@example.com",
      password := pwHash "pw2", is_admin := false }], [], []⟩

/-- C10, as stated, is false: the account named `"BOB"` is stored, the query
`"bob"` equals its username up to case, yet resolution returns the other
(first-stored) case-variant account. -/
theorem username_lookup_cex :
    (⟨3, "BOB", "bob2@example.com", pwHash "pw2", false⟩ : User) ∈
      caseDb.users ∧
    "bob".toList.map Char.toLower = "BOB".toList.map Char.toLower ∧
    lookup_by_username caseDb "bob" = some bobUser ∧
    lookup_by_username caseDb "bob" ≠
      some ⟨3, "BOB", "bob2@example.com", pwHash "pw2", false⟩ := by
  refine ⟨by decide, by decide, ?_, ?_⟩
  · rfl
  · intro h
    simp only [lookup_by_username] at h
    exact absurd h (by decide)

/-- C10 (amended): a wildcard-free query equal, up to letter case, to
the username of some stored account never yields a not-found outcome: it
resolves to a stored account whose username LIKE-matches the query, and
when that match is unique it is that very account.  (Email lookup at
login, by contrast, is exact.) -/
theorem username_lookup_case_insensitive (db : Database) (u : User)
    (q : String) (hu : u ∈ db.users) (hpct : '%' ∉ q.toList)
    (hcase : q.toList.map Char.toLower =
      u.username.toList.map Char.toLower) :
    ∃ v, lookup_by_username db q = some v ∧
      likeMatch q.toList v.username.toList = true ∧
      ((∀ w ∈ db.users, likeMatch q.toList w.username.toList = true →
        w = u) → v = u) := by
  have humatch : likeMatch q.toList u.username.toList = true :=
    likeMatch_of_map_toLower_eq q.toList u.username.toList hpct hcase
  have hsome : (db.users.find? (fun w =>
      likeMatch q.toList w.username.toList)).isSome :=
    List.find?_isSome.mpr ⟨u, hu, humatch⟩
  obtain ⟨v, hv⟩ := Option.isSome_iff_exists.mp hsome
  have hpv : likeMatch q.toList v.username.toList = true := by
    simpa using List.find?_some hv
  exact ⟨v, hv, hpv,
    fun huniq => huniq v (List.mem_of_find?_eq_some hv) hpv⟩

/-- C10 witness: the mixed-case query `"BoB"` resolves to the stored
account `bob`, which is the unique case-insensitive match. -/
theorem username_lookup_case_insensitive_witness :
    bobUser ∈ twoUserDb.users ∧
    '%' ∉ "BoB".toList ∧
    "BoB".toList.map Char.toLower =
      bobUser.username.toList.map Char.toLower ∧
    (∃ v, lookup_by_username twoUserDb "BoB" = some v ∧
      likeMatch "BoB".toList v.username.toList = true ∧
      ((∀ w ∈ twoUserDb.users,
        likeMatch "BoB".toList w.username.toList = true → w = bobUser) →
        v = bobUser)) :=
  ⟨by decide, by decide, by decide,
   username_lookup_case_insensitive twoUserDb bobUser "BoB" (by decide)
     (by decide) (by decide)⟩

end LinkUp
